import Mathlib

/-!
Verification of the X11 screen-capture routine
`x11_grab_screen` and its JNI entry point `grabScreen`
(net_java_sip_communicator_impl_neomedia_imgstreaming_UnixScreenCapture.c).

The C routine is embedded shallowly: every call into Xlib or the OS
(XOpenDisplay, XShmQueryExtension, XShmCreateImage, shmget, shmat, shmctl,
XShmAttach, XShmGetImage, XGetImage, malloc, XGetPixel, XDestroyImage,
XShmDetach, shmdt, XCloseDisplay) is answered by an explicit environment
`X11Env`, and the routine records the sequence of calls it makes as a
trace of `Event`s.  A small operational semantics (`Resources.step`)
interprets a trace as acquisitions and releases of the underlying
resources (display connection, native image, shared-memory segment and
its local/server attachments), so resource-leak properties are stated
as facts about the final `Resources` state of the trace.
-/

namespace ScreenCapture

/-- One call made by the capture routine to Xlib or the OS, with the
outcome of the call where the call can fail. -/
inductive Event where
  /-- XOpenDisplay; `ok` is whether a connection was opened. -/
  | openDisplay (ok : Bool)
  /-- XCloseDisplay. -/
  | closeDisplay
  /-- XShmCreateImage; `ok` is whether the native image was created. -/
  | shmCreateImage (ok : Bool)
  /-- shmget(IPC_PRIVATE, ..); `ok` is whether a segment was allocated. -/
  | shmget (ok : Bool)
  /-- shmat; `ok` is whether the local attach succeeded. -/
  | shmat (ok : Bool)
  /-- shmctl(.., IPC_RMID, ..): mark the segment for removal. -/
  | shmRmid
  /-- XShmAttach (server-side attach); `ok` is its outcome. -/
  | shmAttach (ok : Bool)
  /-- XShmGetImage: server-side image fill request over the segment. -/
  | shmGetImage (ok : Bool)
  /-- XGetImage: server-side direct image pull (creates the image when it succeeds). -/
  | getImage (ok : Bool)
  /-- malloc of the output pixel buffer; `ok` is whether it succeeded. -/
  | mallocData (ok : Bool)
  /-- XDestroyImage. -/
  | destroyImage
  /-- XShmDetach (server-side detach). -/
  | shmDetach
  /-- shmdt (local detach). -/
  | shmdt
  deriving DecidableEq, Repr

/-- Is the event a server-side image request (XShmGetImage or XGetImage)? -/
def Event.isImageRequest : Event → Bool
  | .shmGetImage _ => true
  | .getImage _ => true
  | _ => false

/-- Is the event the fallback direct image pull (XGetImage)? -/
def Event.isFallbackRequest : Event → Bool
  | .getImage _ => true
  | _ => false

/-- Is the event an operation on the shared-memory segment
(allocation, attachment, removal mark, fill request, detachment)? -/
def Event.isShmOp : Event → Bool
  | .shmget _ => true
  | .shmat _ => true
  | .shmRmid => true
  | .shmAttach _ => true
  | .shmGetImage _ => true
  | .shmDetach => true
  | .shmdt => true
  | _ => false

/-- The externally visible resources held at a point of execution:
open display connections, live native images, shared-memory segments
present in the system registry, local (process) attachments and
server-side attachments of the segment.  `rmidPending` records that the
segment is marked for removal but still has a local attachment, so the
registry entry survives until the last detach (IPC_RMID semantics). -/
structure Resources where
  connections : Nat
  images : Nat
  shmSegments : Nat
  localAttaches : Nat
  serverAttaches : Nat
  rmidPending : Bool
  deriving DecidableEq, Repr

/-- No resources at all. -/
def Resources.none : Resources :=
  ⟨0, 0, 0, 0, 0, false⟩

/-- Effect of one call on the resource state. -/
def Resources.step (r : Resources) : Event → Resources
  | .openDisplay ok => if ok then { r with connections := r.connections + 1 } else r
  | .closeDisplay => { r with connections := r.connections - 1 }
  | .shmCreateImage ok => if ok then { r with images := r.images + 1 } else r
  | .getImage ok => if ok then { r with images := r.images + 1 } else r
  | .destroyImage => { r with images := r.images - 1 }
  | .shmget ok => if ok then { r with shmSegments := r.shmSegments + 1 } else r
  | .shmat ok => if ok then { r with localAttaches := r.localAttaches + 1 } else r
  | .shmRmid =>
      if r.shmSegments = 0 then r
      else if r.localAttaches = 0 then { r with shmSegments := r.shmSegments - 1 }
      else { r with rmidPending := true }
  | .shmdt =>
      if r.localAttaches ≤ 1 ∧ r.rmidPending then
        { r with localAttaches := r.localAttaches - 1,
                 shmSegments := r.shmSegments - 1, rmidPending := false }
      else { r with localAttaches := r.localAttaches - 1 }
  | .shmAttach ok => if ok then { r with serverAttaches := r.serverAttaches + 1 } else r
  | .shmDetach => { r with serverAttaches := r.serverAttaches - 1 }
  | .shmGetImage _ => r
  | .mallocData _ => r

/-- Resource state after running a whole trace from nothing. -/
def runTrace (tr : List Event) : Resources :=
  tr.foldl Resources.step Resources.none

/-- All answers the process environment, the X server and the OS give to
the capture routine during one call.  `screenPixel` gives, per absolute
screen coordinate, the value XGetPixel reads out of the captured image
(an `unsigned long`, so possibly wider than 32 bits). -/
structure X11Env where
  envDisplay : Option String
  openDisplayOk : String → Bool
  screenWidth : Int
  screenHeight : Int
  depth : Int
  shmSupport : Bool
  shmCreateImageOk : Bool
  shmgetOk : Bool
  shmatOk : Bool
  shmAttachOk : Bool
  shmGetImageOk : Bool
  getImageOk : Bool
  mallocOk : Bool
  screenPixel : Int → Int → Nat

/-- `display_str = x11display ? x11display : getenv("DISPLAY")`. -/
def resolveDisplay (env : X11Env) (x11display : Option String) : Option String :=
  match x11display with
  | some s => some s
  | none => env.envDisplay

/-- One converted output pixel: `(uint32_t)XGetPixel(..)` then `|= 0xff000000`. -/
def argbPixel (v : Nat) : Nat :=
  v % 2 ^ 32 ||| 0xff000000

/-- The conversion double loop (`for j in [0,h), for i in [0,w)`), as a pure
function of an abstract pixel source.  The image was captured at offset
`(x, y)`, so image coordinate `(i, j)` holds the screen pixel `(x+i, y+j)`. -/
def convertPixels (getPix : Int → Int → Nat) (x y : Int) (w h : Nat) : List Nat :=
  (List.range h).flatMap fun (j : Nat) =>
    (List.range w).map fun (i : Nat) => argbPixel (getPix (x + (i : Int)) (y + (j : Int)))

/-- Tail of the routine from the `malloc` of `data` onward: allocate the
output buffer, convert, then free the image, detach shared memory when the
SHM path was taken, and close the display. -/
def grabFinish (env : X11Env) (x y w h : Int) (shm_support : Bool)
    (tr : List Event) : Option (List Nat) × List Event :=
  if env.mallocOk then
    (some (convertPixels env.screenPixel x y w.toNat h.toNat),
     tr ++ [Event.mallocData true, Event.destroyImage]
        ++ (if shm_support then [Event.shmDetach, Event.shmdt] else [])
        ++ [Event.closeDisplay])
  else
    (Option.none,
     tr ++ [Event.mallocData false, Event.destroyImage]
        ++ (if shm_support then [Event.shmDetach, Event.shmdt] else [])
        ++ [Event.closeDisplay])

/-- Shallow embedding of `x11_grab_screen`: returns the routine's result
(`some` output buffer, or `none` for the NULL failure signal) together
with the trace of Xlib/OS calls it made, in program order.

Mirrors the C control flow: resolve the display name, open the display,
read the geometry, bounds-check the region, probe SHM support; on the SHM
path create the image, shmget/shmat/IPC_RMID, server-attach, XShmGetImage;
on the fallback path XGetImage; then malloc, convert, and release.
`shmat` on the id of a failed `shmget` fails, so the local attach succeeds
exactly when `shmgetOk && shmatOk`; XShmAttach is only issued when the
local attach succeeded (short-circuit `||` in the C condition). -/
def x11_grab_screen (env : X11Env) (x11display : Option String)
    (x y w h : Int) : Option (List Nat) × List Event :=
  match resolveDisplay env x11display with
  | Option.none => (Option.none, [])
  | some _display_str =>
    if env.openDisplayOk _display_str then
      if w + x > env.screenWidth ∨ h + y > env.screenHeight then
        (Option.none, [Event.openDisplay true, Event.closeDisplay])
      else if env.shmSupport then
        if env.shmCreateImageOk then
          if env.shmgetOk && env.shmatOk then
            if env.shmAttachOk then
              if env.shmGetImageOk then
                grabFinish env x y w h true
                  [Event.openDisplay true, Event.shmCreateImage true,
                   Event.shmget env.shmgetOk, Event.shmat (env.shmgetOk && env.shmatOk),
                   Event.shmRmid, Event.shmAttach true, Event.shmGetImage true]
              else
                (Option.none,
                 [Event.openDisplay true, Event.shmCreateImage true,
                  Event.shmget env.shmgetOk, Event.shmat (env.shmgetOk && env.shmatOk),
                  Event.shmRmid, Event.shmAttach true, Event.shmGetImage false,
                  Event.shmDetach, Event.shmdt, Event.closeDisplay])
            else
              (Option.none,
               [Event.openDisplay true, Event.shmCreateImage true,
                Event.shmget env.shmgetOk, Event.shmat (env.shmgetOk && env.shmatOk),
                Event.shmRmid, Event.shmAttach false, Event.closeDisplay])
          else
            (Option.none,
             [Event.openDisplay true, Event.shmCreateImage true,
              Event.shmget env.shmgetOk, Event.shmat (env.shmgetOk && env.shmatOk),
              Event.shmRmid, Event.closeDisplay])
        else
          (Option.none,
           [Event.openDisplay true, Event.shmCreateImage false, Event.closeDisplay])
      else
        if env.getImageOk then
          grabFinish env x y w h false
            [Event.openDisplay true, Event.getImage true]
        else
          (Option.none,
           [Event.openDisplay true, Event.getImage false, Event.closeDisplay])
    else
      (Option.none, [Event.openDisplay false])

/-- Shallow embedding of the JNI entry point `grabScreen`: call
`x11_grab_screen(NULL, x, y, width, height)`, and on success copy
`size = width*height` elements of the returned buffer into a fresh
array handed to the caller (`NewIntArray` + `SetIntArrayRegion`). -/
def grabScreenJNI (env : X11Env) (x y width height : Int) : Option (List Nat) :=
  match (x11_grab_screen env Option.none x y width height).1 with
  | Option.none => Option.none
  | some data => some ((List.range (width * height).toNat).map fun k => data.getD k 0)

/-! ### Helper lemmas about the conversion loop -/

theorem convertPixels_succ (getPix : Int → Int → Nat) (x y : Int) (w n : Nat) :
    convertPixels getPix x y w (n + 1) =
      convertPixels getPix x y w n ++
        ((List.range w).map fun (i : Nat) => argbPixel (getPix (x + (i : Int)) (y + (n : Int)))) := by
  simp [convertPixels, List.range_succ]

theorem convertPixels_length (getPix : Int → Int → Nat) (x y : Int) (w : Nat) :
    ∀ h : Nat, (convertPixels getPix x y w h).length = h * w := by
  intro h
  induction h with
  | zero => simp [convertPixels]
  | succ n ih =>
    rw [convertPixels_succ, List.length_append, ih, List.length_map, List.length_range,
      Nat.succ_mul]

theorem convertPixels_getElem (getPix : Int → Int → Nat) (x y : Int) (w : Nat) :
    ∀ h j i : Nat, j < h → i < w →
      (convertPixels getPix x y w h)[j * w + i]? =
        some (argbPixel (getPix (x + (i : Int)) (y + (j : Int)))) := by
  intro h
  induction h with
  | zero => intro j i hj _; exact absurd hj (Nat.not_lt_zero j)
  | succ n ih =>
    intro j i hj hi
    rw [convertPixels_succ]
    rcases Nat.lt_succ_iff_lt_or_eq.mp hj with hjn | rfl
    · rw [List.getElem?_append_left]
      · exact ih j i hjn hi
      · rw [convertPixels_length]
        have h1 : j * w + i < (j + 1) * w := by
          rw [Nat.succ_mul]; omega
        have h2 : (j + 1) * w ≤ n * w := Nat.mul_le_mul_right _ hjn
        omega
    · rw [List.getElem?_append_right (by rw [convertPixels_length]; omega)]
      rw [convertPixels_length]
      have hidx : j * w + i - j * w = i := by omega
      rw [hidx, List.getElem?_map, List.getElem?_range hi]
      rfl

theorem convertPixels_mem {getPix : Int → Int → Nat} {x y : Int} {w h : Nat} {v : Nat}
    (hv : v ∈ convertPixels getPix x y w h) : ∃ u, v = argbPixel u := by
  simp only [convertPixels, List.mem_flatMap, List.mem_map, List.mem_range] at hv
  obtain ⟨j, _, i, _, rfl⟩ := hv
  exact ⟨_, rfl⟩

/-! ### Helper lemmas about the converted pixel values -/

theorem lor_ff_of_lt {a : Nat} (ha : a < 256) : a ||| 255 = 255 := by
  apply Nat.eq_of_testBit_eq
  intro i
  rw [Nat.testBit_lor]
  have h255 : (255 : Nat) = 2 ^ 8 - 1 := by norm_num
  by_cases hi : i < 8
  · have ht : Nat.testBit 255 i = true := by
      rw [h255, Nat.testBit_two_pow_sub_one]; simpa using hi
    simp [ht]
  · have ht : Nat.testBit 255 i = false := by
      rw [h255, Nat.testBit_two_pow_sub_one]; simpa using hi
    have h8 : (2 : Nat) ^ 8 ≤ 2 ^ i :=
      Nat.pow_le_pow_right (show 0 < 2 by norm_num) (show 8 ≤ i by omega)
    have ha' : Nat.testBit a i = false :=
      Nat.testBit_lt_two_pow (lt_of_lt_of_le ha (by simpa using h8))
    simp [ht, ha']

theorem argbPixel_lt (v : Nat) : argbPixel v < 2 ^ 32 :=
  Nat.or_lt_two_pow (Nat.mod_lt v (by norm_num)) (by norm_num)

theorem shiftRight_lor_distrib (a b n : Nat) :
    (a ||| b) >>> n = (a >>> n) ||| (b >>> n) := by
  apply Nat.eq_of_testBit_eq
  intro i
  simp only [Nat.testBit_lor, Nat.testBit_shiftRight]

theorem argbPixel_div (v : Nat) : argbPixel v / 2 ^ 24 = 255 := by
  have h1 : argbPixel v / 2 ^ 24 = argbPixel v >>> 24 := by
    rw [Nat.shiftRight_eq_div_pow]
  have h2 : argbPixel v >>> 24 = ((v % 2 ^ 32) >>> 24) ||| ((0xff000000 : Nat) >>> 24) :=
    shiftRight_lor_distrib _ _ _
  have h3 : (0xff000000 : Nat) >>> 24 = 255 := by decide
  have h4 : (v % 2 ^ 32) >>> 24 < 256 := by
    rw [Nat.shiftRight_eq_div_pow]
    rw [Nat.div_lt_iff_lt_mul (by norm_num : 0 < 2 ^ 24)]
    calc v % 2 ^ 32 < 2 ^ 32 := Nat.mod_lt v (by norm_num)
      _ = 256 * 2 ^ 24 := by norm_num
  rw [h1, h2, h3]
  exact lor_ff_of_lt h4

/-! ### Success-path characterization -/

/-- On every successful call, the returned buffer is exactly the output of
the conversion double loop over the requested region. -/
theorem grab_data_eq {env : X11Env} {d : Option String} {x y w h : Int}
    {buf : List Nat} (hs : (x11_grab_screen env d x y w h).1 = some buf) :
    buf = convertPixels env.screenPixel x y w.toNat h.toNat := by
  unfold x11_grab_screen grabFinish at hs
  repeat' split at hs
  all_goals simp_all

/-! ### Concrete environments for witness evaluations -/

/-- A 10x10 screen whose pixel values exceed 32 bits, with every Xlib and
OS call succeeding. -/
def okEnv : X11Env :=
  { envDisplay := some ":0"
  , openDisplayOk := fun _ => true
  , screenWidth := 10
  , screenHeight := 10
  , depth := 24
  , shmSupport := true
  , shmCreateImageOk := true
  , shmgetOk := true
  , shmatOk := true
  , shmAttachOk := true
  , shmGetImageOk := true
  , getImageOk := true
  , mallocOk := true
  , screenPixel := fun a b => 2 ^ 40 + 256 * a.toNat + b.toNat }

/-- Like `okEnv`, but the server-side XShmAttach fails. -/
def leakEnv : X11Env :=
  { okEnv with shmAttachOk := false }

/-! ### Claim theorems -/

/-- **C1** (refuted by the code, a resource-leak bug): the claim says every
resource acquired up to an exit point is released before the routine
returns, on success and on failure.  On the shared-memory path with image
creation and the local shmget/shmat succeeding but the server-side
XShmAttach failing, the routine returns NULL and closes the display, yet
never calls XDestroyImage or shmdt: the native image, the local segment
attachment, and therefore the removal-marked segment itself all survive
the call. -/
theorem shm_attach_failure_leaks :
    (x11_grab_screen leakEnv Option.none 0 0 1 1).1 = Option.none ∧
    (runTrace (x11_grab_screen leakEnv Option.none 0 0 1 1).2).connections = 0 ∧
    (runTrace (x11_grab_screen leakEnv Option.none 0 0 1 1).2).images = 1 ∧
    (runTrace (x11_grab_screen leakEnv Option.none 0 0 1 1).2).localAttaches = 1 ∧
    (runTrace (x11_grab_screen leakEnv Option.none 0 0 1 1).2).shmSegments = 1 := by
  decide

/-- **C2**: on every successful capture, the output entry at index `j*w+i`
is the native pixel value at `(i, j)` of the region, truncated to 32 bits
and OR-ed with 0xFF000000; consequently every entry of a successful result
has top byte 0xFF, and no bits above bit 31 reach the result. -/
theorem conversion_correct {env : X11Env} {d : Option String} {x y w h : Int}
    {buf : List Nat} (hs : (x11_grab_screen env d x y w h).1 = some buf) :
    (∀ j i : Nat, j < h.toNat → i < w.toNat →
      buf[j * w.toNat + i]? =
        some (env.screenPixel (x + (i : Int)) (y + (j : Int)) % 2 ^ 32 ||| 0xff000000)) ∧
    (∀ v ∈ buf, v / 2 ^ 24 = 0xff ∧ v < 2 ^ 32) := by
  have hbuf := grab_data_eq hs
  subst hbuf
  refine ⟨fun j i hj hi => ?_, fun v hv => ?_⟩
  · simpa [argbPixel] using
      convertPixels_getElem env.screenPixel x y w.toNat h.toNat j i hj hi
  · obtain ⟨u, rfl⟩ := convertPixels_mem hv
    exact ⟨argbPixel_div u, argbPixel_lt u⟩

/-- Witness for C2 at a concrete input: a 2x2 capture at (3,4) on `okEnv`,
checked at row 1, column 0. -/
theorem conversion_correct_witness :
    (x11_grab_screen okEnv Option.none 3 4 2 2).1 =
      some [4278190852, 4278191108, 4278190853, 4278191109] ∧
    [4278190852, 4278191108, 4278190853, 4278191109][1 * (2 : Int).toNat + 0]? =
      some (okEnv.screenPixel (3 + ((0 : Nat) : Int)) (4 + ((1 : Nat) : Int)) % 2 ^ 32 |||
        0xff000000) :=
  ⟨by decide,
   (@conversion_correct okEnv Option.none 3 4 2 2
      [4278190852, 4278191108, 4278190853, 4278191109] (by decide)).1
     1 0 (by decide) (by decide)⟩

/-- **C3**: whenever the requested region exceeds the screen bounds, the
routine fails, never issues a server-side image request (XShmGetImage or
XGetImage), and every display connection it opened is closed again by the
time it returns. -/
theorem bounds_reject {env : X11Env} {d : Option String} {x y w h : Int}
    (hoob : w + x > env.screenWidth ∨ h + y > env.screenHeight) :
    (x11_grab_screen env d x y w h).1 = Option.none ∧
    (∀ e ∈ (x11_grab_screen env d x y w h).2, e.isImageRequest = false) ∧
    (runTrace (x11_grab_screen env d x y w h).2).connections = 0 := by
  unfold x11_grab_screen
  rcases hres : resolveDisplay env d with _ | s
  · simp [runTrace, Resources.none]
  · cases hop : env.openDisplayOk s
    · simp [hop, runTrace, Resources.none, Resources.step, Event.isImageRequest]
    · simp only [hop, if_true]
      rw [if_pos hoob]
      refine ⟨rfl, ?_, by decide⟩
      intro e he
      simp only [List.mem_cons, List.not_mem_nil, or_false] at he
      rcases he with rfl | rfl <;> rfl

/-- Witness for C3 at a concrete input: a 20x20 capture at (5,5) on the
10x10 `okEnv` screen. -/
theorem bounds_reject_witness :
    ((20 : Int) + 5 > okEnv.screenWidth ∨ (20 : Int) + 5 > okEnv.screenHeight) ∧
    ((x11_grab_screen okEnv Option.none 5 5 20 20).1 = Option.none ∧
     (∀ e ∈ (x11_grab_screen okEnv Option.none 5 5 20 20).2, e.isImageRequest = false) ∧
     (runTrace (x11_grab_screen okEnv Option.none 5 5 20 20).2).connections = 0) :=
  ⟨by decide, bounds_reject (by decide)⟩

/-- **C7**: if no display name is supplied and the process environment has
none either, the routine fails with an empty call trace: no connection is
opened, no image created, no shared memory allocated. -/
theorem no_display_no_resources {env : X11Env} {x y w h : Int}
    (he : env.envDisplay = Option.none) :
    x11_grab_screen env Option.none x y w h = (Option.none, []) := by
  unfold x11_grab_screen resolveDisplay
  rw [he]

/-- Witness for C7 at a concrete input. -/
theorem no_display_no_resources_witness :
    ({ okEnv with envDisplay := Option.none } : X11Env).envDisplay = Option.none ∧
    x11_grab_screen { okEnv with envDisplay := Option.none } Option.none 0 0 1 1 =
      (Option.none, []) :=
  ⟨rfl, no_display_no_resources rfl⟩

/-- **C4**: for one and the same environment (in particular, the same pixel
values held by the display service), a successful capture over the
shared-memory fast path and a successful capture of the same region over
the XGetImage fallback return byte-identical output buffers. -/
theorem shm_fallback_equiv {env : X11Env} {d : Option String} {x y w h : Int}
    {b1 b2 : List Nat}
    (h1 : (x11_grab_screen { env with shmSupport := true } d x y w h).1 = some b1)
    (h2 : (x11_grab_screen { env with shmSupport := false } d x y w h).1 = some b2) :
    b1 = b2 := by
  have e1 := grab_data_eq h1
  have e2 := grab_data_eq h2
  subst e1; subst e2
  rfl

/-- Witness for C4 at a concrete input: a 2x1 capture at (0,0) on `okEnv`,
over the SHM path and over the fallback path. -/
theorem shm_fallback_equiv_witness :
    (x11_grab_screen { okEnv with shmSupport := true } Option.none 0 0 2 1).1 =
      some [4278190080, 4278190336] ∧
    (x11_grab_screen { okEnv with shmSupport := false } Option.none 0 0 2 1).1 =
      some [4278190080, 4278190336] ∧
    ([4278190080, 4278190336] : List Nat) = [4278190080, 4278190336] :=
  ⟨by decide, by decide,
   @shm_fallback_equiv okEnv Option.none 0 0 2 1 _ _ (by decide) (by decide)⟩

/-- **C5**: on every successful call with nonnegative dimensions, the
returned buffer holds exactly w*h (32-bit) entries, and the JNI entry point
hands the caller an array of exactly w*h elements copied from that buffer. -/
theorem output_size {env : X11Env} {x y w h : Int} {buf : List Nat}
    (hw : 0 ≤ w) (hh : 0 ≤ h)
    (hs : (x11_grab_screen env Option.none x y w h).1 = some buf) :
    buf.length = (w * h).toNat ∧
    grabScreenJNI env x y w h =
      some ((List.range (w * h).toNat).map fun k => buf.getD k 0) ∧
    (∀ out : List Nat, grabScreenJNI env x y w h = some out →
      out.length = (w * h).toNat) := by
  have hbuf := grab_data_eq hs
  have hlen : buf.length = (w * h).toNat := by
    rw [hbuf, convertPixels_length]
    rcases Int.eq_ofNat_of_zero_le hw with ⟨a, rfl⟩
    rcases Int.eq_ofNat_of_zero_le hh with ⟨b, rfl⟩
    rw [← Int.natCast_mul, Int.toNat_natCast, Int.toNat_natCast, Int.toNat_natCast,
      Nat.mul_comm]
  refine ⟨hlen, ?_, ?_⟩
  · unfold grabScreenJNI
    rw [hs]
  · intro out hout
    unfold grabScreenJNI at hout
    rw [hs] at hout
    simp only [Option.some.injEq] at hout
    rw [← hout, List.length_map, List.length_range]

/-- Witness for C5 at a concrete input: a 2x2 capture at (0,0) on `okEnv`. -/
theorem output_size_witness :
    (0 : Int) ≤ 2 ∧
    (x11_grab_screen okEnv Option.none 0 0 2 2).1 =
      some [4278190080, 4278190336, 4278190081, 4278190337] ∧
    ([4278190080, 4278190336, 4278190081, 4278190337] : List Nat).length =
      ((2 : Int) * 2).toNat :=
  ⟨by decide, by decide,
   (@output_size okEnv 0 0 2 2 [4278190080, 4278190336, 4278190081, 4278190337]
      (by decide) (by decide) (by decide)).1⟩

/-- **C6**: when the SHM capability probe reported support and the native
image was created, but segment allocation (shmget), local attachment
(shmat) or the server-side attach (XShmAttach) fails, the whole call fails
with every opened connection closed again, and the fallback XGetImage path
is never attempted. -/
theorem shm_negotiation_failure_no_fallback {env : X11Env} {d : Option String}
    {x y w h : Int} (hshm : env.shmSupport = true)
    (hcr : env.shmCreateImageOk = true)
    (hfail : ¬(env.shmgetOk = true ∧ env.shmatOk = true ∧ env.shmAttachOk = true)) :
    (x11_grab_screen env d x y w h).1 = Option.none ∧
    (runTrace (x11_grab_screen env d x y w h).2).connections = 0 ∧
    (∀ e ∈ (x11_grab_screen env d x y w h).2, e.isFallbackRequest = false) := by
  rcases hres : resolveDisplay env d with _ | s <;> unfold x11_grab_screen <;> rw [hres]
  · exact ⟨rfl, rfl, fun e he => absurd he (List.not_mem_nil e)⟩
  · cases hop : env.openDisplayOk s
    · simp [hop, runTrace, Resources.step, Resources.none, Event.isFallbackRequest]
    · cases hget : env.shmgetOk <;> cases hat : env.shmatOk <;>
        cases hatt : env.shmAttachOk <;>
        simp_all [runTrace, Resources.step, Resources.none, Event.isFallbackRequest] <;>
        split <;>
        simp_all [runTrace, Resources.step, Resources.none, Event.isFallbackRequest]

/-- Witness for C6 at a concrete input: `leakEnv`, where XShmAttach fails. -/
theorem shm_negotiation_failure_no_fallback_witness :
    leakEnv.shmSupport = true ∧ leakEnv.shmCreateImageOk = true ∧
    ¬(leakEnv.shmgetOk = true ∧ leakEnv.shmatOk = true ∧ leakEnv.shmAttachOk = true) ∧
    ((x11_grab_screen leakEnv Option.none 0 0 1 1).1 = Option.none ∧
     (runTrace (x11_grab_screen leakEnv Option.none 0 0 1 1).2).connections = 0 ∧
     (∀ e ∈ (x11_grab_screen leakEnv Option.none 0 0 1 1).2, e.isFallbackRequest = false)) :=
  ⟨rfl, rfl, by decide,
   @shm_negotiation_failure_no_fallback leakEnv Option.none 0 0 1 1 rfl rfl (by decide)⟩

/-- **C9**: on the SHM path, if creating the native image descriptor itself
fails, the routine fails with every opened connection closed again, and no
shared-memory operation (shmget, shmat, IPC_RMID, XShmAttach, XShmGetImage,
detach) is ever attempted in that call. -/
theorem shm_create_image_failure {env : X11Env} {d : Option String} {x y w h : Int}
    (hshm : env.shmSupport = true) (hcr : env.shmCreateImageOk = false) :
    (x11_grab_screen env d x y w h).1 = Option.none ∧
    (runTrace (x11_grab_screen env d x y w h).2).connections = 0 ∧
    (∀ e ∈ (x11_grab_screen env d x y w h).2, e.isShmOp = false) := by
  rcases hres : resolveDisplay env d with _ | s <;> unfold x11_grab_screen <;> rw [hres]
  · exact ⟨rfl, rfl, fun e he => absurd he (List.not_mem_nil e)⟩
  · cases hop : env.openDisplayOk s
    · simp [hop, runTrace, Resources.step, Resources.none, Event.isShmOp]
    · simp_all only [if_true]
      split <;>
        simp_all [runTrace, Resources.step, Resources.none, Event.isShmOp]

/-- Witness for C9 at a concrete input. -/
theorem shm_create_image_failure_witness :
    ({ okEnv with shmCreateImageOk := false } : X11Env).shmSupport = true ∧
    ({ okEnv with shmCreateImageOk := false } : X11Env).shmCreateImageOk = false ∧
    ((x11_grab_screen { okEnv with shmCreateImageOk := false } Option.none 0 0 1 1).1 =
        Option.none ∧
     (runTrace (x11_grab_screen { okEnv with shmCreateImageOk := false }
        Option.none 0 0 1 1).2).connections = 0 ∧
     (∀ e ∈ (x11_grab_screen { okEnv with shmCreateImageOk := false }
        Option.none 0 0 1 1).2, e.isShmOp = false)) :=
  ⟨rfl, rfl,
   @shm_create_image_failure { okEnv with shmCreateImageOk := false }
     Option.none 0 0 1 1 rfl rfl⟩

/-- **C8**: the bounds check tests only the upper bounds.  A request with a
negative x or y whose far edges still fit inside the screen is not rejected
as out of bounds: the routine goes on to issue a server-side image request
(provided the preceding negotiation steps succeed when SHM is used). -/
theorem negative_origin_not_rejected {env : X11Env} {d : Option String} {s : String}
    {x y w h : Int}
    (hres : resolveDisplay env d = some s)
    (hop : env.openDisplayOk s = true)
    (_hneg : x < 0 ∨ y < 0)
    (hbx : w + x ≤ env.screenWidth) (hby : h + y ≤ env.screenHeight)
    (hfast : env.shmSupport = true → env.shmCreateImageOk = true ∧ env.shmgetOk = true ∧
      env.shmatOk = true ∧ env.shmAttachOk = true) :
    ∃ e ∈ (x11_grab_screen env d x y w h).2, e.isImageRequest = true := by
  unfold x11_grab_screen
  rw [hres]
  simp only [hop, if_true]
  rw [if_neg (by omega : ¬(w + x > env.screenWidth ∨ h + y > env.screenHeight))]
  cases hshm : env.shmSupport
  · simp only [hshm, Bool.false_eq_true, if_false]
    cases hgi : env.getImageOk
    · simp only [hgi, Bool.false_eq_true, if_false]
      exact ⟨Event.getImage false, by simp, rfl⟩
    · simp only [hgi, if_true]
      unfold grabFinish
      cases hm : env.mallocOk <;>
        simp only [hm, Bool.false_eq_true, if_false, if_true] <;>
        exact ⟨Event.getImage true, by simp, rfl⟩
  · obtain ⟨hcr, hget, hat, hatt⟩ := hfast hshm
    simp only [hshm, hcr, hget, hat, hatt, Bool.and_self, if_true]
    cases hsgi : env.shmGetImageOk
    · simp only [hsgi, Bool.false_eq_true, if_false]
      exact ⟨Event.shmGetImage false, by simp, rfl⟩
    · simp only [hsgi, if_true]
      unfold grabFinish
      cases hm : env.mallocOk <;>
        simp only [hm, Bool.false_eq_true, if_false, if_true] <;>
        exact ⟨Event.shmGetImage true, by simp, rfl⟩

/-- Witness for C8 at a concrete input: a 2x2 capture at (-1,-1) on the
10x10 `okEnv` screen. -/
theorem negative_origin_not_rejected_witness :
    resolveDisplay okEnv Option.none = some ":0" ∧
    okEnv.openDisplayOk ":0" = true ∧
    ((-1 : Int) < 0 ∨ (-1 : Int) < 0) ∧
    (2 : Int) + (-1) ≤ okEnv.screenWidth ∧
    (2 : Int) + (-1) ≤ okEnv.screenHeight ∧
    (∃ e ∈ (x11_grab_screen okEnv Option.none (-1) (-1) 2 2).2,
      e.isImageRequest = true) :=
  ⟨rfl, rfl, by decide, by decide, by decide,
   @negative_origin_not_rejected okEnv Option.none ":0" (-1) (-1) 2 2
     rfl rfl (by decide) (by decide) (by decide)
     (fun _ => ⟨rfl, rfl, rfl, rfl⟩)⟩

/-- Congruence for the conversion loop: only pixels inside the captured
region are read. -/
theorem convertPixels_congr {p q : Int → Int → Nat} {x y : Int} {w h : Nat}
    (hpq : ∀ i < w, ∀ j < h, p (x + (i : Int)) (y + (j : Int)) = q (x + (i : Int)) (y + (j : Int))) :
    convertPixels p x y w h = convertPixels q x y w h := by
  unfold convertPixels
  refine List.flatMap_congr fun j hj => ?_
  refine List.map_congr_left fun i hi => ?_
  rw [hpq i (List.mem_range.mp hi) j (List.mem_range.mp hj)]

/-- **C10**: the routine is deterministic in its environment.  Two
environments giving the same display name, capability and geometry answers,
the same call outcomes, and the same pixel values on the requested region
produce the same capture outcome: both fail, or both return the identical
buffer. -/
theorem capture_deterministic {env1 env2 : X11Env} {d : Option String} {x y w h : Int}
    (h01 : env1.envDisplay = env2.envDisplay)
    (h02 : env1.openDisplayOk = env2.openDisplayOk)
    (h03 : env1.screenWidth = env2.screenWidth)
    (h04 : env1.screenHeight = env2.screenHeight)
    (h05 : env1.depth = env2.depth)
    (h06 : env1.shmSupport = env2.shmSupport)
    (h07 : env1.shmCreateImageOk = env2.shmCreateImageOk)
    (h08 : env1.shmgetOk = env2.shmgetOk)
    (h09 : env1.shmatOk = env2.shmatOk)
    (h10 : env1.shmAttachOk = env2.shmAttachOk)
    (h11 : env1.shmGetImageOk = env2.shmGetImageOk)
    (h12 : env1.getImageOk = env2.getImageOk)
    (h13 : env1.mallocOk = env2.mallocOk)
    (hpix : ∀ i < w.toNat, ∀ j < h.toNat,
      env1.screenPixel (x + (i : Int)) (y + (j : Int)) =
        env2.screenPixel (x + (i : Int)) (y + (j : Int))) :
    (x11_grab_screen env1 d x y w h).1 = (x11_grab_screen env2 d x y w h).1 := by
  obtain ⟨e1, o1, sw1, sh1, dp1, sm1, cr1, sg1, sa1, st1, si1, gi1, ma1, p1⟩ := env1
  obtain ⟨e2, o2, sw2, sh2, dp2, sm2, cr2, sg2, sa2, st2, si2, gi2, ma2, p2⟩ := env2
  simp only at h01 h02 h03 h04 h05 h06 h07 h08 h09 h10 h11 h12 h13 hpix
  subst h01; subst h02; subst h03; subst h04; subst h05; subst h06; subst h07
  subst h08; subst h09; subst h10; subst h11; subst h12; subst h13
  have hcp : convertPixels p1 x y w.toNat h.toNat = convertPixels p2 x y w.toNat h.toNat :=
    convertPixels_congr hpix
  unfold x11_grab_screen grabFinish resolveDisplay
  simp only [hcp]

/-- Witness for C10 at a concrete input: the two environments agree on the
requested 2x2 region at (0,0) but give different pixels outside it; the
outcomes coincide. -/
theorem capture_deterministic_witness :
    (∀ i < ((2 : Int)).toNat, ∀ j < ((2 : Int)).toNat,
      okEnv.screenPixel ((0 : Int) + (i : Int)) ((0 : Int) + (j : Int)) =
        ({ okEnv with screenPixel := fun a b =>
            if a < 5 ∧ b < 5 then 2 ^ 40 + 256 * a.toNat + b.toNat else 12345 } :
          X11Env).screenPixel ((0 : Int) + (i : Int)) ((0 : Int) + (j : Int))) ∧
    (x11_grab_screen okEnv Option.none 0 0 2 2).1 =
      (x11_grab_screen { okEnv with screenPixel := fun a b =>
          if a < 5 ∧ b < 5 then 2 ^ 40 + 256 * a.toNat + b.toNat else 12345 }
        Option.none 0 0 2 2).1 :=
  ⟨by decide,
   @capture_deterministic okEnv
     { okEnv with screenPixel := fun a b =>
         if a < 5 ∧ b < 5 then 2 ^ 40 + 256 * a.toNat + b.toNat else 12345 }
     Option.none 0 0 2 2 rfl rfl rfl rfl rfl rfl rfl rfl rfl rfl rfl rfl rfl
     (by decide)⟩

end ScreenCapture
